import Mathlib

/-!
Shallow embedding of the `i2c-rs` crate (`src/lib.rs`): the `Command` framing
layer (`Connection`), the `Stream` transport contract it consumes, and the
production transport `I2CStream` built on the external `i2c_linux` crate.

Bytes are modelled as `Nat` (no arithmetic is ever performed on them),
durations as `Nat` time units, and `std::io::Result` as an explicit `Outcome`
that also records Rust panics (out-of-bounds indexing such as `command[0]`
on an empty buffer).

The `i2c_linux::I2c` handle is an external collaborator (out of scope for the
repository); it is modelled as an oracle `I2cDevice` whose fields give the
result of each raw bus operation.
-/

set_option linter.unusedVariables false

namespace I2cRs

/-- Error kinds of `std::io::Error` that matter here: a timeout-classified
kind versus generic kinds. -/
inductive ErrorKind where
  | notFound
  | permissionDenied
  | timedOut
  | other
deriving DecidableEq, Repr

/-- Model of `std::io::Error`: a kind plus a numeric cause identifying the
underlying OS error (e.g. errno). -/
structure IoError where
  kind : ErrorKind
  cause : Nat
deriving DecidableEq, Repr

/-- Outcome of running one Rust operation: a panic (out-of-bounds index),
an `Err` result, or an `Ok` result. -/
inductive Outcome (α : Type) where
  | panic
  | err (e : IoError)
  | ok (a : α)
deriving DecidableEq, Repr

/-- The timeout error the kernel surfaces when the device does not respond
within the configured wait: ETIMEDOUT (errno 110), classified `timedOut`. -/
def ioTimedOut : IoError := { kind := ErrorKind.timedOut, cause := 110 }

/-- Oracle model of the external `i2c_linux::I2c` handle and the device
behind it.  Each field answers one raw bus call; `none` for an `Option
IoError` field means the call succeeds. -/
structure I2cDevice where
  /-- `I2c::from_path`: opening the device handle. -/
  from_path : String → Option IoError
  /-- `smbus_set_slave_address(slave, tenbit)`. -/
  set_slave_address : Nat → Bool → Option IoError
  /-- `i2c_write_block_data(register, payload)`: bus write failure, if any. -/
  write_block_data : Nat → List Nat → Option IoError
  /-- Bus-level failure of a block read on a register, if any. -/
  read_err : Nat → Option IoError
  /-- Bytes the device yields for a block read on a register (before
  truncation to the caller's buffer length). -/
  read_resp : Nat → List Nat
  /-- Time units the device takes to answer a read on a register. -/
  resp_time : Nat → Nat
  /-- `i2c_set_timeout` failure, if any. -/
  set_timeout_err : Option IoError
  /-- Failure of an `i2c_transfer` combined write+read message list whose
  write payload is the given buffer, if any. -/
  transfer_err : List Nat → Option IoError
  /-- Bytes the device yields in the read message of an `i2c_transfer`
  whose write payload is the given buffer. -/
  transfer_resp : List Nat → List Nat

/-- In-place fill of a fixed-length buffer with response bytes, as the
kernel fills the caller's `&mut [u8]`: the response overwrites the front of
the buffer and the buffer length cannot change (Rust slice semantics). -/
def fillFrom (buf resp : List Nat) : List Nat :=
  resp.take buf.length ++ buf.drop resp.length

/-- `I2CStream`: the production transport, holding the device path and the
slave address. -/
structure I2CStream where
  path : String
  slave : Nat
deriving DecidableEq, Repr

/-- `I2CStream::new`. -/
def I2CStream.new (path : String) (slave : Nat) : I2CStream :=
  { path := path, slave := slave }

/-- `I2CStream::write`: open the handle, set the slave address, then
`i2c_write_block_data(command[0], &command[1..])`.  Indexing `command[0]`
panics on an empty buffer. -/
def I2CStream.write (dev : I2cDevice) (self : I2CStream) (command : List Nat) :
    Outcome Unit :=
  match dev.from_path self.path with
  | some e => Outcome.err e
  | none =>
    match dev.set_slave_address self.slave false with
    | some e => Outcome.err e
    | none =>
      match command[0]? with
      | none => Outcome.panic
      | some r =>
        match dev.write_block_data r (command.drop 1) with
        | some e => Outcome.err e
        | none => Outcome.ok ()

/-- `I2CStream::write_bytes`: the source body is identical to `write`,
line for line. -/
def I2CStream.write_bytes (dev : I2cDevice) (self : I2CStream) (command : List Nat) :
    Outcome Unit :=
  match dev.from_path self.path with
  | some e => Outcome.err e
  | none =>
    match dev.set_slave_address self.slave false with
    | some e => Outcome.err e
    | none =>
      match command[0]? with
      | none => Outcome.panic
      | some r =>
        match dev.write_block_data r (command.drop 1) with
        | some e => Outcome.err e
        | none => Outcome.ok ()

/-- `I2CStream::read`: open, set address, allocate `vec![0; rx_len]`, then
`i2c_read_block_data(command[0], &mut data)` and return `data`. -/
def I2CStream.read (dev : I2cDevice) (self : I2CStream) (command : List Nat)
    (rx_len : Nat) : Outcome (List Nat) :=
  match dev.from_path self.path with
  | some e => Outcome.err e
  | none =>
    match dev.set_slave_address self.slave false with
    | some e => Outcome.err e
    | none =>
      match command[0]? with
      | none => Outcome.panic
      | some r =>
        match dev.read_err r with
        | some e => Outcome.err e
        | none => Outcome.ok (fillFrom (List.replicate rx_len 0) (dev.read_resp r))

/-- `I2CStream::read_timeout`: as `read`, but `i2c_set_timeout(timeout)` is
called before the block read; the subsequent read fails with ETIMEDOUT when
the device's response time exceeds the configured wait. -/
def I2CStream.read_timeout (dev : I2cDevice) (self : I2CStream) (command : List Nat)
    (rx_len : Nat) (timeout : Nat) : Outcome (List Nat) :=
  match dev.from_path self.path with
  | some e => Outcome.err e
  | none =>
    match dev.set_slave_address self.slave false with
    | some e => Outcome.err e
    | none =>
      match dev.set_timeout_err with
      | some e => Outcome.err e
      | none =>
        match command[0]? with
        | none => Outcome.panic
        | some r =>
          if timeout < dev.resp_time r then Outcome.err ioTimedOut
          else
            match dev.read_err r with
            | some e => Outcome.err e
            | none => Outcome.ok (fillFrom (List.replicate rx_len 0) (dev.read_resp r))

/-- `I2CStream::transfer` as committed, after the minimal syntax repair that
keeps its literal text (the source places `return
i2c.i2c_transfer(&mut msgs).map(|_| msgs[1].len())` inside the `msgs` array
literal and does not compile): it builds the write message from `command`
and a read message over `vec![0; rx_len]`, runs the combined transaction,
and returns the READ MESSAGE LENGTH, a byte count; the line `Ok(data)` that
would return the bytes is commented out, and `delay` is never used. -/
def I2CStream.transfer (dev : I2cDevice) (self : I2CStream) (command : List Nat)
    (rx_len : Nat) (delay : Nat) : Outcome Nat :=
  match dev.from_path self.path with
  | some e => Outcome.err e
  | none =>
    match dev.set_slave_address self.slave false with
    | some e => Outcome.err e
    | none =>
      match dev.transfer_err command with
      | some e => Outcome.err e
      | none => Outcome.ok (List.replicate rx_len 0).length

/-- Modelled from the spec: the committed body of `I2CStream::transfer` is
malformed and does not compile, and spec section 9 directs that the intended
behavior — write `command`, then read `rx_len` bytes back and return those
bytes — is the specification.  This definition follows those words and is
used only to wire a complete `Stream` record for `Connection`. -/
def I2CStream.transfer_spec (dev : I2cDevice) (self : I2CStream) (command : List Nat)
    (rx_len : Nat) (delay : Nat) : Outcome (List Nat) :=
  match dev.from_path self.path with
  | some e => Outcome.err e
  | none =>
    match dev.set_slave_address self.slave false with
    | some e => Outcome.err e
    | none =>
      match dev.transfer_err command with
      | some e => Outcome.err e
      | none => Outcome.ok (fillFrom (List.replicate rx_len 0) (dev.transfer_resp command))

/-- The `hal_stream::Stream` trait as `Connection` consumes it (error type
fixed to `std::io::Error`): a record of the five transport operations. -/
structure Stream where
  write : List Nat → Outcome Unit
  write_bytes : List Nat → Outcome Unit
  read : List Nat → Nat → Outcome (List Nat)
  read_timeout : List Nat → Nat → Nat → Outcome (List Nat)
  transfer : List Nat → Nat → Nat → Outcome (List Nat)

/-- The `Stream` impl of `I2CStream`, relative to a device oracle.  The
`transfer` field uses `I2CStream.transfer_spec` because the committed
`transfer` body does not compile (see its doc). -/
def I2CStream.toStream (dev : I2cDevice) (self : I2CStream) : Stream where
  write := I2CStream.write dev self
  write_bytes := I2CStream.write_bytes dev self
  read := I2CStream.read dev self
  read_timeout := I2CStream.read_timeout dev self
  transfer := I2CStream.transfer_spec dev self

/-- `Command`: an I2C command or registry byte plus the data to write. -/
structure Command where
  cmd : Nat
  data : List Nat
deriving DecidableEq, Repr

/-- `Connection`: owns one boxed `Stream`. -/
structure Connection where
  stream : Stream

/-- `Connection::new`. -/
def Connection.new (stream : Stream) : Connection :=
  { stream := stream }

/-- `Connection::from_path`, relative to a device oracle. -/
def Connection.from_path (dev : I2cDevice) (path : String) (slave : Nat) : Connection :=
  { stream := I2CStream.toStream dev (I2CStream.new path slave) }

/-- `Connection::write`: `buf = command.data; buf.insert(0, command.cmd);
stream.write(buf)`. -/
def Connection.write (self : Connection) (command : Command) : Outcome Unit :=
  let buf := command.data
  let buf := List.insertIdx 0 command.cmd buf
  self.stream.write buf

/-- `Connection::read`: same framing, then `stream.read(&mut buf, rx_len)`. -/
def Connection.read (self : Connection) (command : Command) (rx_len : Nat) :
    Outcome (List Nat) :=
  let buf := command.data
  let buf := List.insertIdx 0 command.cmd buf
  self.stream.read buf rx_len

/-- `Connection::transfer`: same framing, then
`stream.transfer(buf, rx_len, delay)`. -/
def Connection.transfer (self : Connection) (command : Command) (rx_len : Nat)
    (delay : Nat) : Outcome (List Nat) :=
  let buf := command.data
  let buf := List.insertIdx 0 command.cmd buf
  self.stream.transfer buf rx_len delay

/-- Device path used for concrete runs. -/
def i2cPath : String := "/dev/i2c-0"

/-- Mock device for concrete runs, following the concrete scenario of spec
section 8: register 0x10 holds the two bytes 0xAB 0xCD, every bus call
succeeds, the device answers immediately. -/
def mockDevice : I2cDevice where
  from_path := fun _ => none
  set_slave_address := fun _ _ => none
  write_block_data := fun _ _ => none
  read_err := fun _ => none
  read_resp := fun r => if r = 0x10 then [0xAB, 0xCD] else []
  resp_time := fun _ => 0
  set_timeout_err := none
  transfer_err := fun _ => none
  transfer_resp := fun buffer => if buffer[0]? = some 0x10 then [0xAB, 0xCD] else []

/-- Mock device identical to `mockDevice` except every register takes 3 time
units to answer. -/
def slowDevice : I2cDevice :=
  { mockDevice with resp_time := fun _ => 3 }

/-- A mock transport that deterministically echoes back bytes derived from
the input buffer and the requested length. -/
def echoStream (f : List Nat → Nat → List Nat) : Stream where
  write := fun _ => Outcome.ok ()
  write_bytes := fun _ => Outcome.ok ()
  read := fun buffer rx_len => Outcome.ok (f buffer rx_len)
  read_timeout := fun buffer rx_len _ => Outcome.ok (f buffer rx_len)
  transfer := fun buffer rx_len _ => Outcome.ok (f buffer rx_len)

/-- A mock transport whose `write` always fails with a fixed bus error
(NACK, errno 121), all other operations succeeding vacuously. -/
def nackStream : Stream where
  write := fun _ => Outcome.err { kind := ErrorKind.other, cause := 121 }
  write_bytes := fun _ => Outcome.err { kind := ErrorKind.other, cause := 121 }
  read := fun _ rx_len => Outcome.ok (List.replicate rx_len 0)
  read_timeout := fun _ rx_len _ => Outcome.ok (List.replicate rx_len 0)
  transfer := fun _ rx_len _ => Outcome.ok (List.replicate rx_len 0)

/-- Filling a fixed-length buffer never changes its length. -/
theorem fillFrom_length (buf resp : List Nat) :
    (fillFrom buf resp).length = buf.length := by
  simp only [fillFrom, List.length_append, List.length_take, List.length_drop]
  omega

/-- Framing: each Connection operation passes its stream the buffer
`cmd :: data`. -/
theorem Connection.write_eq (s : Stream) (c : Command) :
    Connection.write (Connection.new s) c = s.write (c.cmd :: c.data) := by
  simp [Connection.write, Connection.new, List.insertIdx_zero]

theorem Connection.read_eq (s : Stream) (c : Command) (rx_len : Nat) :
    Connection.read (Connection.new s) c rx_len = s.read (c.cmd :: c.data) rx_len := by
  simp [Connection.read, Connection.new, List.insertIdx_zero]

theorem Connection.transfer_eq (s : Stream) (c : Command) (rx_len delay : Nat) :
    Connection.transfer (Connection.new s) c rx_len delay =
      s.transfer (c.cmd :: c.data) rx_len delay := by
  simp [Connection.transfer, Connection.new, List.insertIdx_zero]

/-- C1: for every Command with register byte `r = c.cmd` and payload
`p = c.data` (possibly empty), each of `Connection.write`, `Connection.read`
and `Connection.transfer` hands the transport exactly the flattened buffer
`r :: p`: `r` followed by the payload bytes in order, with `r` at
position 0. -/
theorem c1_framing_exact (s : Stream) (c : Command) (rx_len delay : Nat) :
    Connection.write (Connection.new s) c = s.write (c.cmd :: c.data) ∧
    Connection.read (Connection.new s) c rx_len = s.read (c.cmd :: c.data) rx_len ∧
    Connection.transfer (Connection.new s) c rx_len delay =
      s.transfer (c.cmd :: c.data) rx_len delay :=
  ⟨Connection.write_eq s c, Connection.read_eq s c rx_len,
    Connection.transfer_eq s c rx_len delay⟩

/-- C3 (code defect): the committed `I2CStream.transfer` never consults its
`delay` argument — the outcome is identical for any two delays — so no
minimum interval between the write phase and the read phase is enforced,
contradicting the documented meaning of `delay`. -/
theorem c3_transfer_ignores_delay (dev : I2cDevice) (self : I2CStream)
    (command : List Nat) (rx_len d1 d2 : Nat) :
    I2CStream.transfer dev self command rx_len d1 =
      I2CStream.transfer dev self command rx_len d2 := rfl

/-- C7: `write` and `write_bytes` of the production transport are the same
operation — against the same device state and buffer they run the same bus
calls and produce the same result. -/
theorem c7_write_bytes_identical (dev : I2cDevice) (self : I2CStream)
    (buffer : List Nat) :
    I2CStream.write dev self buffer = I2CStream.write_bytes dev self buffer := rfl

/-- C10: the production read depends only on `buffer[0]` and `rx_len`: two
commands sharing the register byte but differing in payload give identical
outcomes, both at `I2CStream.read` directly and through `Connection.read`
wired to the production transport. -/
theorem c10_read_payload_independent (dev : I2cDevice) (self : I2CStream)
    (r : Nat) (d1 d2 : List Nat) (rx_len : Nat) :
    I2CStream.read dev self (r :: d1) rx_len =
      I2CStream.read dev self (r :: d2) rx_len ∧
    Connection.read (Connection.new (I2CStream.toStream dev self)) ⟨r, d1⟩ rx_len =
      Connection.read (Connection.new (I2CStream.toStream dev self)) ⟨r, d2⟩ rx_len := by
  constructor
  · simp [I2CStream.read]
  · simp [Connection.read, Connection.new, I2CStream.toStream, List.insertIdx_zero,
      I2CStream.read]

/-- An `I2CStream.read` that succeeds returns the zero-initialised buffer of
length `rx_len` filled from the device response for `buffer[0]`, hence has
length exactly `rx_len`. -/
theorem I2CStream.read_ok_length (dev : I2cDevice) (self : I2CStream)
    (buffer : List Nat) (rx_len : Nat) (out : List Nat)
    (h : I2CStream.read dev self buffer rx_len = Outcome.ok out) :
    out.length = rx_len := by
  simp only [I2CStream.read] at h
  split at h
  · simp at h
  · split at h
    · simp at h
    · split at h
      · simp at h
      · split at h
        · simp at h
        · cases h
          simp [fillFrom_length]

/-- C5: a successful read returns a byte sequence of length exactly
`rx_len` — the read is addressed by `buffer[0]` — both at the transport
(`I2CStream.read`) and through `Connection.read` wired to it. -/
theorem c5_read_returns_rx_len (dev : I2cDevice) (self : I2CStream)
    (buffer : List Nat) (c : Command) (rx_len : Nat) (out1 out2 : List Nat) :
    (I2CStream.read dev self buffer rx_len = Outcome.ok out1 →
      out1.length = rx_len) ∧
    (Connection.read (Connection.new (I2CStream.toStream dev self)) c rx_len =
        Outcome.ok out2 → out2.length = rx_len) := by
  refine ⟨I2CStream.read_ok_length dev self buffer rx_len out1, ?_⟩
  intro h
  rw [Connection.read_eq] at h
  simp only [I2CStream.toStream] at h
  exact I2CStream.read_ok_length dev self (c.cmd :: c.data) rx_len out2 h

/-- Concrete run of c5, the concrete scenario of spec section 8: reading
register 0x10 with `rx_len = 2` from the mock yields `[0xAB, 0xCD]`, of
length 2. -/
theorem c5_read_returns_rx_len_witness :
    I2CStream.read mockDevice (I2CStream.new i2cPath 8) [0x10] 2 =
      Outcome.ok [0xAB, 0xCD] ∧ ([0xAB, 0xCD] : List Nat).length = 2 :=
  ⟨rfl,
    (c5_read_returns_rx_len mockDevice (I2CStream.new i2cPath 8) [0x10]
        { cmd := 0x10, data := [] } 2 [0xAB, 0xCD] [0xAB, 0xCD]).1 rfl⟩

/-- C2 (code defect): run at the concrete input: command buffer `[0x10]`,
`rx_len = 2`, delay 5, against the mock device whose register 0x10 answers
0xAB 0xCD.  The committed `I2CStream.transfer` returns `Outcome.ok 2` — the
read message's byte count — while the bytes the device sent back,
`[0xAB, 0xCD]`, are discarded (the `Ok(data)` line is commented out). -/
theorem c2_transfer_returns_count_not_bytes :
    I2CStream.transfer mockDevice (I2CStream.new i2cPath 8) [0x10] 2 5 =
      Outcome.ok 2 ∧
    fillFrom (List.replicate 2 0) (mockDevice.transfer_resp [0x10]) =
      [0xAB, 0xCD] := by
  constructor <;> rfl

/-- C4: `Connection.write` returns exactly the transport's write result on
the framed buffer — the same error `e` on failure, `ok ()` on success — and
its outcome is a function of the transport's `write` operation alone, so no
read operation is consulted during a plain write call. -/
theorem c4_write_propagation (s : Stream) (c : Command) :
    Connection.write (Connection.new s) c = s.write (c.cmd :: c.data) ∧
    (∀ e, s.write (c.cmd :: c.data) = Outcome.err e →
      Connection.write (Connection.new s) c = Outcome.err e) ∧
    (s.write (c.cmd :: c.data) = Outcome.ok () →
      Connection.write (Connection.new s) c = Outcome.ok ()) ∧
    (∀ s2 : Stream, s2.write = s.write →
      Connection.write (Connection.new s2) c = Connection.write (Connection.new s) c) := by
  refine ⟨Connection.write_eq s c, ?_, ?_, ?_⟩
  · intro e h
    rw [Connection.write_eq, h]
  · intro h
    rw [Connection.write_eq, h]
  · intro s2 h
    rw [Connection.write_eq, Connection.write_eq, h]

/-- Concrete run of c4: against a transport whose write NACKs with the bus
error (other, 121), `Connection.write` fails with that same error. -/
theorem c4_write_propagation_witness :
    Connection.write (Connection.new nackStream) { cmd := 0x20, data := [0x01] } =
      Outcome.err { kind := ErrorKind.other, cause := 121 } :=
  (c4_write_propagation nackStream { cmd := 0x20, data := [0x01] }).2.1
    { kind := ErrorKind.other, cause := 121 } rfl

/-- C6: `read_timeout` behaves as `read` except that it first configures the
maximum wait: when the addressed register answers within `timeout` the two
agree exactly; when the device takes longer than `timeout` the call fails
with ETIMEDOUT, whose kind is `timedOut` and not a generic kind. -/
theorem c6_read_timeout_behaviour (dev : I2cDevice) (self : I2CStream)
    (buffer : List Nat) (rx_len t r : Nat) :
    (dev.set_timeout_err = none →
      (∀ reg, buffer[0]? = some reg → dev.resp_time reg ≤ t) →
      I2CStream.read_timeout dev self buffer rx_len t =
        I2CStream.read dev self buffer rx_len) ∧
    (dev.from_path self.path = none →
      dev.set_slave_address self.slave false = none →
      dev.set_timeout_err = none →
      buffer[0]? = some r →
      t < dev.resp_time r →
      I2CStream.read_timeout dev self buffer rx_len t = Outcome.err ioTimedOut ∧
      ioTimedOut.kind = ErrorKind.timedOut ∧ ioTimedOut.kind ≠ ErrorKind.other) := by
  constructor
  · intro hto hfast
    cases hfp : dev.from_path self.path with
    | some e => simp [I2CStream.read_timeout, I2CStream.read, hfp]
    | none =>
      cases haddr : dev.set_slave_address self.slave false with
      | some e => simp [I2CStream.read_timeout, I2CStream.read, hfp, haddr]
      | none =>
        cases hidx : buffer[0]? with
        | none => simp [I2CStream.read_timeout, I2CStream.read, hfp, haddr, hto, hidx]
        | some reg =>
          have hnl : ¬ t < dev.resp_time reg := not_lt.mpr (hfast reg hidx)
          simp [I2CStream.read_timeout, I2CStream.read, hfp, haddr, hto, hidx, hnl]
  · intro hfp haddr hto hidx hslow
    refine ⟨?_, rfl, by decide⟩
    simp [I2CStream.read_timeout, hfp, haddr, hto, hidx, hslow]

/-- Concrete run of c6: the slow mock takes 3 time units to answer; a
`read_timeout` with wait 1 fails with the timeout-classified error. -/
theorem c6_read_timeout_behaviour_witness :
    I2CStream.read_timeout slowDevice (I2CStream.new i2cPath 8) [0x10] 2 1 =
      Outcome.err ioTimedOut :=
  ((c6_read_timeout_behaviour slowDevice (I2CStream.new i2cPath 8) [0x10] 2 1
      0x10).2 rfl rfl rfl rfl (by decide)).1

/-- C8: `Connection.read` and `Connection.transfer` return the transport's
response bytes to the caller unmodified, and with a mock transport echoing
`rx_len` bytes derived deterministically from the input buffer, both yield
exactly those bytes. -/
theorem c8_roundtrip_unmodified (s : Stream) (f : List Nat → Nat → List Nat)
    (c : Command) (rx_len delay : Nat) :
    (∀ bs, s.read (c.cmd :: c.data) rx_len = Outcome.ok bs →
      Connection.read (Connection.new s) c rx_len = Outcome.ok bs) ∧
    (∀ bs, s.transfer (c.cmd :: c.data) rx_len delay = Outcome.ok bs →
      Connection.transfer (Connection.new s) c rx_len delay = Outcome.ok bs) ∧
    Connection.transfer (Connection.new (echoStream f)) c rx_len delay =
      Outcome.ok (f (c.cmd :: c.data) rx_len) ∧
    Connection.read (Connection.new (echoStream f)) c rx_len =
      Outcome.ok (f (c.cmd :: c.data) rx_len) := by
  refine ⟨?_, ?_, ?_, ?_⟩
  · intro bs h
    rw [Connection.read_eq, h]
  · intro bs h
    rw [Connection.transfer_eq, h]
  · rw [Connection.transfer_eq]
    rfl
  · rw [Connection.read_eq]
    rfl

/-- Concrete run of c8: an echo transport answering the first `rx_len`
bytes of the input buffer, through `Connection.transfer` of command 0x10
with payload `[1, 2]` and `rx_len = 2`, yields exactly `[0x10, 1]`. -/
theorem c8_roundtrip_unmodified_witness :
    Connection.transfer
        (Connection.new (echoStream (fun buffer rx => buffer.take rx)))
        { cmd := 0x10, data := [1, 2] } 2 0 = Outcome.ok [0x10, 1] :=
  (c8_roundtrip_unmodified (echoStream (fun buffer rx => buffer.take rx))
      (fun buffer rx => buffer.take rx) { cmd := 0x10, data := [1, 2] } 2 0).2.1
    [0x10, 1] rfl

/-- The bodies of `write` and `write_bytes` are identical in the source. -/
theorem I2CStream.write_bytes_eq (dev : I2cDevice) (self : I2CStream)
    (buffer : List Nat) :
    I2CStream.write_bytes dev self buffer = I2CStream.write dev self buffer := rfl

/-- On a nonempty buffer, the production write never reaches the panic of
`command[0]`. -/
theorem I2CStream.write_ne_panic (dev : I2cDevice) (self : I2CStream)
    (buffer : List Nat) (hb : buffer ≠ []) :
    I2CStream.write dev self buffer ≠ Outcome.panic := by
  obtain ⟨a, l, rfl⟩ := List.exists_cons_of_ne_nil hb
  cases hfp : dev.from_path self.path <;>
    cases haddr : dev.set_slave_address self.slave false <;>
      cases hw : dev.write_block_data a l <;>
        simp [I2CStream.write, hfp, haddr, hw]

/-- On a nonempty buffer, the production read never reaches the panic of
`command[0]`. -/
theorem I2CStream.read_ne_panic (dev : I2cDevice) (self : I2CStream)
    (buffer : List Nat) (rx_len : Nat) (hb : buffer ≠ []) :
    I2CStream.read dev self buffer rx_len ≠ Outcome.panic := by
  obtain ⟨a, l, rfl⟩ := List.exists_cons_of_ne_nil hb
  cases hfp : dev.from_path self.path <;>
    cases haddr : dev.set_slave_address self.slave false <;>
      cases hr : dev.read_err a <;>
        simp [I2CStream.read, hfp, haddr, hr]

/-- On a nonempty buffer, the production timed read never reaches the panic
of `command[0]`. -/
theorem I2CStream.read_timeout_ne_panic (dev : I2cDevice) (self : I2CStream)
    (buffer : List Nat) (rx_len t : Nat) (hb : buffer ≠ []) :
    I2CStream.read_timeout dev self buffer rx_len t ≠ Outcome.panic := by
  obtain ⟨a, l, rfl⟩ := List.exists_cons_of_ne_nil hb
  cases hfp : dev.from_path self.path <;>
    cases haddr : dev.set_slave_address self.slave false <;>
      cases hto : dev.set_timeout_err <;>
        cases hr : dev.read_err a <;>
          simp [I2CStream.read_timeout, hfp, haddr, hto, hr] <;>
            split <;> simp

/-- The spec-modelled transfer indexes no buffer position, so it never
panics at all. -/
theorem I2CStream.transfer_spec_ne_panic (dev : I2cDevice) (self : I2CStream)
    (buffer : List Nat) (rx_len delay : Nat) :
    I2CStream.transfer_spec dev self buffer rx_len delay ≠ Outcome.panic := by
  cases hfp : dev.from_path self.path <;>
    cases haddr : dev.set_slave_address self.slave false <;>
      cases ht : dev.transfer_err buffer <;>
        simp [I2CStream.transfer_spec, hfp, haddr, ht]

/-- C9: every Connection operation passes the transport the buffer
`cmd :: data`, of length at least 1; on any nonempty buffer the production
transport operations that index `buffer[0]` stay in bounds; hence no
Connection operation over the production transport ever panics. -/
theorem c9_no_out_of_bounds (dev : I2cDevice) (self : I2CStream) (c : Command)
    (buffer : List Nat) (rx_len t delay : Nat) :
    1 ≤ (List.insertIdx 0 c.cmd c.data).length ∧
    (buffer ≠ [] →
      I2CStream.write dev self buffer ≠ Outcome.panic ∧
      I2CStream.write_bytes dev self buffer ≠ Outcome.panic ∧
      I2CStream.read dev self buffer rx_len ≠ Outcome.panic ∧
      I2CStream.read_timeout dev self buffer rx_len t ≠ Outcome.panic) ∧
    Connection.write (Connection.new (I2CStream.toStream dev self)) c ≠
      Outcome.panic ∧
    Connection.read (Connection.new (I2CStream.toStream dev self)) c rx_len ≠
      Outcome.panic ∧
    Connection.transfer (Connection.new (I2CStream.toStream dev self)) c rx_len delay ≠
      Outcome.panic := by
  refine ⟨?_, ?_, ?_, ?_, ?_⟩
  · rw [List.insertIdx_zero]
    simp
  · intro hb
    exact ⟨I2CStream.write_ne_panic dev self buffer hb,
      (I2CStream.write_bytes_eq dev self buffer).symm ▸
        I2CStream.write_ne_panic dev self buffer hb,
      I2CStream.read_ne_panic dev self buffer rx_len hb,
      I2CStream.read_timeout_ne_panic dev self buffer rx_len t hb⟩
  · rw [Connection.write_eq]
    exact I2CStream.write_ne_panic dev self (c.cmd :: c.data) (List.cons_ne_nil _ _)
  · rw [Connection.read_eq]
    exact I2CStream.read_ne_panic dev self (c.cmd :: c.data) rx_len
      (List.cons_ne_nil _ _)
  · rw [Connection.transfer_eq]
    exact I2CStream.transfer_spec_ne_panic dev self (c.cmd :: c.data) rx_len delay

/-- Concrete run of c9: a one-byte buffer (empty payload) read through the
production transport does not panic. -/
theorem c9_no_out_of_bounds_witness :
    I2CStream.read mockDevice (I2CStream.new i2cPath 8) [0x10] 2 ≠ Outcome.panic :=
  ((c9_no_out_of_bounds mockDevice (I2CStream.new i2cPath 8)
      { cmd := 0x10, data := [] } [0x10] 2 1 0).2.1 (by simp)).2.2.1

end I2cRs
